import Mathlib

/-!
Verification of the filter-and-aggregate view-model of the COVID-19
analytics dashboard (`src/app.py`).

The program loads two CSV tables (a global trend table with a prediction
column and a per-country summary table), filters the country table by a
user-chosen continent subset, and computes summary statistics, a top-10
ranking and correlation reference lines over the filtered rows.

Shallow embedding conventions:
* a pandas DataFrame row becomes a Lean structure; a DataFrame becomes a
  `List` of rows in index order;
* numeric columns are modelled as `ℚ`;
* pandas `NaN` results (mean of an empty column) are modelled as `none`;
* operations that raise (`iloc[-1]` on an empty frame, column access with
  an unknown key) return `none` / `Except.error`.
-/

/-- One row of `country_insight_full.csv` (columns used by `app.py`). -/
structure CountryRecord where
  iso_code : String
  location : String
  continent : String
  total_cases : ℚ
  total_deaths : ℚ
  vaccination_rate : ℚ
  mortality_rate : ℚ
  population : ℚ
deriving DecidableEq

/-- One row of `ml_global_prediction.csv` (columns used by `app.py`). -/
structure TrendRecord where
  date : String
  new_cases_smoothed : ℚ
  prediction : ℚ
deriving DecidableEq

/-- Line 55: `all_continents = sorted(df_countries['continent'].unique())` —
the distinct continent values of the table, sorted ascending.  `dedup`
followed by an ascending sort yields exactly the sorted list of distinct
values, as pandas `sorted(unique(...))` does. -/
def all_continents (df_countries : List CountryRecord) : List String :=
  ((df_countries.map (·.continent)).dedup).insertionSort (· ≤ ·)

/-- Lines 62–66: the filter logic.  Python truthiness: a non-empty
selection list filters by membership (`isin`); an empty selection falls
back to the unfiltered table. -/
def df_filtered (selected_continents : List String)
    (df_countries : List CountryRecord) : List CountryRecord :=
  if selected_continents ≠ [] then
    df_countries.filter fun r => decide (r.continent ∈ selected_continents)
  else
    df_countries

/-- Line 86: `total_cases = df_filtered['total_cases'].sum()`; pandas sum
of an empty column is 0. -/
def total_cases_sum (df : List CountryRecord) : ℚ :=
  (df.map (·.total_cases)).sum

/-- Line 87: `total_deaths = df_filtered['total_deaths'].sum()`. -/
def total_deaths_sum (df : List CountryRecord) : ℚ :=
  (df.map (·.total_deaths)).sum

/-- Line 88: `avg_vax_rate = df_filtered['vaccination_rate'].mean()`;
pandas mean of an empty column is `NaN`, modelled as `none`. -/
def avg_vax_rate (df : List CountryRecord) : Option ℚ :=
  if df = [] then none
  else some ((df.map (·.vaccination_rate)).sum / df.length)

/-- Line 91: `df_filtered['total_cases'].idxmax()` followed by `.loc`:
the first row attaining the maximum of `total_cases` (pandas `idxmax`
returns the first occurrence of the maximum); `none` on an empty frame
(where `idxmax` raises, but line 90 guards that case). -/
def idxmaxRecord : List CountryRecord → Option CountryRecord
  | [] => none
  | r :: rs =>
    match idxmaxRecord rs with
    | none => some r
    | some m => if r.total_cases ≥ m.total_cases then some r else some m

/-- Lines 90–93: the `#1 Most Impacted` value — the location of the row
with maximal `total_cases`, or the sentinel `"-"` when the filtered frame
is empty. -/
def top_country (df : List CountryRecord) : String :=
  match idxmaxRecord df with
  | some r => r.location
  | none => "-"

/-- Line 97 renders the mean with the numeric format `f"{avg_vax_rate:.1f}%"`.
There is no sentinel branch on this tile: the `NaN` produced by the mean of
an empty column is formatted by Python as `"nan"`, giving `"nan%"`.  For a
finite mean the exact decimal rendering of the float is irrelevant to the
claims; it is abstracted as `toString` of the rational followed by `"%"`
(in every case it is a numeral, never `"-"`). -/
def avg_vax_display (df : List CountryRecord) : String :=
  match avg_vax_rate df with
  | none => "nan%"
  | some q => toString q ++ "%"

/-- The closed metric set offered by the selectbox on lines 150–152:
`["total_cases", "total_deaths", "vaccination_rate"]`. -/
def map_metric_options : List String :=
  ["total_cases", "total_deaths", "vaccination_rate"]

/-- Column lookup for the three metric columns, as used by
`sort_values(by=col_map_metrics)` on line 169.  Only evaluated for a
metric in `map_metric_options`; the guard in `top10` rejects other names
before this function is consulted. -/
def keyOf (metric : String) (r : CountryRecord) : ℚ :=
  if metric = "total_cases" then r.total_cases
  else if metric = "total_deaths" then r.total_deaths
  else r.vaccination_rate

/-- Ascending comparison of two rows by a metric column. -/
def keyLE (metric : String) (a b : CountryRecord) : Prop :=
  keyOf metric a ≤ keyOf metric b

instance (metric : String) : DecidableRel (keyLE metric) := fun a b =>
  inferInstanceAs (Decidable (keyOf metric a ≤ keyOf metric b))

instance (metric : String) : IsTotal CountryRecord (keyLE metric) :=
  ⟨fun a b => le_total (keyOf metric a) (keyOf metric b)⟩

instance (metric : String) : IsTrans CountryRecord (keyLE metric) :=
  ⟨fun _ _ _ hab hbc => le_trans hab hbc⟩

/-- An unknown column name passed to pandas raises `KeyError`; the spec
taxonomy names this condition `InvalidSelection`. -/
inductive ViewError where
  | InvalidSelection
deriving DecidableEq

/-- Line 169: `top10 = df_filtered.sort_values(by=col_map_metrics,
ascending=False).head(10)`.  For `ascending=False` pandas `nargsort`
reverses the rows *before* the ascending argsort and reverses the
resulting index order again *after* it, so that a descending sort keeps
ties in original input order (pandas's stable-descending behaviour,
GH#6399).  The model mirrors that double reversal around a stable
ascending sort: numpy's default kind degenerates to a stable insertion
sort below its 16-element partition cutoff, where this model is exact,
and it is the tie order pandas documents for the stable kinds.  An
unknown column name raises `KeyError` before any sorting
(`InvalidSelection`). -/
def top10 (metric : String) (df : List CountryRecord) :
    Except ViewError (List CountryRecord) :=
  if metric ∈ map_metric_options then
    .ok ((((df.reverse).insertionSort (keyLE metric)).reverse).take 10)
  else
    .error .InvalidSelection

/-- Lines 204–206: the two reference lines of the bubble chart — the mean
`mortality_rate` (hline) and the mean `vaccination_rate` (vline) of the
filtered frame, produced only when the frame is non-empty. -/
def reference_lines (df : List CountryRecord) : Option (ℚ × ℚ) :=
  if df = [] then none
  else some ((df.map (·.mortality_rate)).sum / df.length,
             (df.map (·.vaccination_rate)).sum / df.length)

/-- Lines 142–144: `last_row = df_trend.iloc[-1]` followed by
`err = last_row['new_cases_smoothed'] - last_row['prediction']`.
`iloc[-1]` on an empty frame raises `IndexError`, modelled as `none`;
there is no guard and no sentinel. -/
def model_status_err (df_trend : List TrendRecord) : Option ℚ :=
  match df_trend.getLast? with
  | none => none
  | some last_row => some (last_row.new_cases_smoothed - last_row.prediction)

/-- Helper: filtering by the full set of distinct continents keeps every
row, and so does the empty-selection fallback. -/
theorem df_filtered_all_continents (df : List CountryRecord) :
    df_filtered (all_continents df) df = df := by
  unfold df_filtered
  by_cases h : all_continents df = []
  · simp [h]
  · rw [if_pos h]
    apply List.filter_eq_self.mpr
    intro r hr
    rw [decide_eq_true_eq]
    unfold all_continents
    rw [List.mem_insertionSort, List.mem_dedup]
    exact List.mem_map_of_mem _ hr

/-- C1: filtering with an empty continent selection falls back to the full
table, so the filtered set — and with it the sum of `total_cases`, the sum
of `total_deaths`, the mean `vaccination_rate` and the top country —
coincides with the result of selecting every distinct continent present in
the table. -/
theorem empty_selection_equals_full_selection (df : List CountryRecord) :
    df_filtered [] df = df
    ∧ df_filtered (all_continents df) df = df
    ∧ total_cases_sum (df_filtered [] df)
        = total_cases_sum (df_filtered (all_continents df) df)
    ∧ total_deaths_sum (df_filtered [] df)
        = total_deaths_sum (df_filtered (all_continents df) df)
    ∧ avg_vax_rate (df_filtered [] df)
        = avg_vax_rate (df_filtered (all_continents df) df)
    ∧ top_country (df_filtered [] df)
        = top_country (df_filtered (all_continents df) df) := by
  have h0 : df_filtered [] df = df := by simp [df_filtered]
  have h1 : df_filtered (all_continents df) df = df :=
    df_filtered_all_continents df
  refine ⟨h0, h1, ?_, ?_, ?_, ?_⟩ <;> rw [h0, h1]

/-- C3 counterexample: on an empty filtered set the average-vaccination
tile shows `"nan%"` (Python's rendering of the NaN mean under `.1f`
formatting), not the sentinel `"-"` the claim asserts. -/
theorem empty_mean_display_counterexample :
    avg_vax_display [] = "nan%" ∧ avg_vax_display [] ≠ "-" := by
  constructor
  · rfl
  · decide

/-- C3 (amended): when the filtered set is empty nothing raises — the
top-country tile is the sentinel `"-"`, both sums are 0, the mean
vaccination rate is undefined (NaN, modelled `none`) and rendered by the
numeric formatter as `"nan%"` rather than `"-"`, and the correlation view
produces no reference lines. -/
theorem summarize_empty_defaults :
    top_country [] = "-"
    ∧ total_cases_sum [] = 0
    ∧ total_deaths_sum [] = 0
    ∧ avg_vax_rate [] = none
    ∧ avg_vax_display [] = "nan%"
    ∧ reference_lines [] = none :=
  ⟨rfl, rfl, rfl, rfl, rfl, rfl⟩

/-- Unfolding equation of `idxmaxRecord` on a non-empty frame. -/
theorem idxmaxRecord_cons (a : CountryRecord) (l : List CountryRecord) :
    idxmaxRecord (a :: l)
      = match idxmaxRecord l with
        | none => some a
        | some m =>
          if a.total_cases ≥ m.total_cases then some a else some m := rfl

/-- Specification of `idxmaxRecord`: on a non-empty frame it returns a row
of the frame whose `total_cases` is maximal. -/
theorem idxmaxRecord_spec (df : List CountryRecord) (h : df ≠ []) :
    ∃ r, idxmaxRecord df = some r ∧ r ∈ df
      ∧ ∀ s ∈ df, s.total_cases ≤ r.total_cases := by
  induction df with
  | nil => exact absurd rfl h
  | cons a l ih =>
    cases l with
    | nil =>
      refine ⟨a, rfl, List.mem_singleton_self a, ?_⟩
      intro s hs
      rw [List.mem_singleton] at hs
      subst hs
      exact le_rfl
    | cons b t =>
      obtain ⟨m, hm, hmem, hmax⟩ := ih (List.cons_ne_nil b t)
      by_cases hc : a.total_cases ≥ m.total_cases
      · refine ⟨a, ?_, List.mem_cons_self a _, ?_⟩
        · simp only [idxmaxRecord_cons, hm]
          exact if_pos hc
        · intro s hs
          rcases List.mem_cons.mp hs with h1 | h2
          · subst h1; exact le_rfl
          · exact le_trans (hmax s h2) hc
      · refine ⟨m, ?_, List.mem_cons_of_mem a hmem, ?_⟩
        · simp only [idxmaxRecord_cons, hm]
          exact if_neg hc
        · intro s hs
          rcases List.mem_cons.mp hs with h1 | h2
          · subst h1; exact le_of_not_le hc
          · exact hmax s h2

/-- First scenario row of spec §8: an EU country with 100 cases and
vaccination rate 5. -/
def rowEU1 : CountryRecord := ⟨"EU1", "Alpha", "EU", 100, 0, 5, 0, 1⟩

/-- Second scenario row of spec §8: an EU country with 50 cases and
vaccination rate 1. -/
def rowEU2 : CountryRecord := ⟨"EU2", "Beta", "EU", 50, 0, 1, 0, 1⟩

/-- Third scenario row of spec §8: an AS country with 200 cases and
vaccination rate 10. -/
def rowAS1 : CountryRecord := ⟨"AS1", "Gamma", "AS", 200, 0, 10, 0, 1⟩

/-- The three-row scenario table of spec §8. -/
def scenario_records : List CountryRecord := [rowEU1, rowEU2, rowAS1]

/-- C4: for every non-empty continent subset, filtering keeps exactly the
rows whose continent lies in the subset, the summarised `total_cases` is
the sum over exactly those rows, and the top country is the location of a
row of maximal `total_cases` among them; on the §8 scenario rows,
selecting `{EU}` gives sum 150 with the 100-case EU row ("Alpha") on top,
and the empty selection gives sum 350 with the 200-case AS row ("Gamma")
on top. -/
theorem filter_then_summarize (C : List String) (hC : C ≠ [])
    (df : List CountryRecord) :
    df_filtered C df = df.filter (fun r => decide (r.continent ∈ C))
    ∧ total_cases_sum (df_filtered C df)
        = ((df.filter fun r => decide (r.continent ∈ C)).map
            (·.total_cases)).sum
    ∧ (df_filtered C df ≠ [] →
        ∃ r, r ∈ df_filtered C df
          ∧ (∀ s ∈ df_filtered C df, s.total_cases ≤ r.total_cases)
          ∧ top_country (df_filtered C df) = r.location)
    ∧ total_cases_sum (df_filtered ["EU"] scenario_records) = 150
    ∧ top_country (df_filtered ["EU"] scenario_records) = rowEU1.location
    ∧ total_cases_sum (df_filtered [] scenario_records) = 350
    ∧ top_country (df_filtered [] scenario_records) = rowAS1.location := by
  have hfe : df_filtered C df = df.filter (fun r => decide (r.continent ∈ C)) := by
    simp [df_filtered, hC]
  have heu : df_filtered ["EU"] scenario_records = [rowEU1, rowEU2] := rfl
  have hall : df_filtered [] scenario_records = scenario_records := rfl
  refine ⟨hfe, by rw [hfe]; rfl, ?_, ?_, ?_, ?_, ?_⟩
  · intro hne
    obtain ⟨r, hr, hmem, hmax⟩ := idxmaxRecord_spec _ hne
    exact ⟨r, hmem, hmax, by unfold top_country; rw [hr]⟩
  · rw [heu]
    norm_num [total_cases_sum, rowEU1, rowEU2]
  · rw [heu]
    norm_num [top_country, idxmaxRecord, rowEU1, rowEU2]
  · rw [hall]
    norm_num [total_cases_sum, scenario_records, rowEU1, rowEU2, rowAS1]
  · rw [hall]
    norm_num [top_country, idxmaxRecord, scenario_records, rowEU1, rowEU2,
      rowAS1]

/-- Concrete instantiation of `filter_then_summarize` with the selection
`{"EU"}` on the §8 scenario rows. -/
theorem filter_then_summarize_witness :
    df_filtered ["EU"] scenario_records
      = scenario_records.filter (fun r => decide (r.continent ∈ ["EU"]))
    ∧ total_cases_sum (df_filtered ["EU"] scenario_records) = 150 :=
  ⟨(filter_then_summarize ["EU"] (by decide) scenario_records).1,
   (filter_then_summarize ["EU"] (by decide) scenario_records).2.2.2.1⟩

/-- The two named resources read on lines 37–38; `none` models an absent
file (`pd.read_csv` raises `FileNotFoundError`). -/
structure FileSystem where
  ml_global_prediction : Option (List TrendRecord)
  country_insight_full : Option (List CountryRecord)

/-- The spec taxonomy names the missing-file condition `ResourceNotFound`
(the code catches `FileNotFoundError` on line 43). -/
inductive LoadError where
  | ResourceNotFound
deriving DecidableEq

/-- The body of `load_data` (lines 36–39): read both CSV files in order;
a missing file aborts the body with `FileNotFoundError`. -/
def read_csvs (fs : FileSystem) :
    Except LoadError (List TrendRecord × List CountryRecord) :=
  match fs.ml_global_prediction with
  | none => .error .ResourceNotFound
  | some df_ml =>
    match fs.country_insight_full with
    | none => .error .ResourceNotFound
    | some df_countries => .ok (df_ml, df_countries)

/-- Process-wide state of the `@st.cache_data` memoisation on line 34:
the cached return value of `load_data`, and how many times its body (the
two `pd.read_csv` calls) has actually run. -/
structure CacheState where
  cache : Option (List TrendRecord × List CountryRecord)
  body_runs : Nat
deriving DecidableEq

/-- Lines 34–39 under `@st.cache_data`: a cache hit returns the stored
tables without running the body; a miss runs the body (both reads, one
`body_runs` increment), caching the value on success.  Exceptions are not
cached. -/
def load_data (fs : FileSystem) (s : CacheState) :
    Except LoadError (List TrendRecord × List CountryRecord) × CacheState :=
  match s.cache with
  | some v => (.ok v, s)
  | none =>
    match read_csvs fs with
    | .ok v => (.ok v, ⟨some v, s.body_runs + 1⟩)
    | .error e => (.error e, ⟨none, s.body_runs + 1⟩)

/-- Cache state at process start: nothing cached, body never run. -/
def init_state : CacheState := ⟨none, 0⟩

/-- State after `n` further reruns of the script each calling
`load_data` once more. -/
def call_load_n (fs : FileSystem) : Nat → CacheState → CacheState
  | 0, s => s
  | n + 1, s => call_load_n fs n (load_data fs s).2

/-- The outputs of one script run that the presentation layer renders:
the four KPI tiles (lines 95–98) and the bubble-chart reference lines
(lines 204–206). -/
structure AppView where
  total_cases_tile : ℚ
  total_deaths_tile : ℚ
  avg_vax_tile : String
  top_country_tile : String
  ref_lines : Option (ℚ × ℚ)
deriving DecidableEq

/-- Lines 41–45 and onward: one script run.  If either CSV is missing the
`except FileNotFoundError` branch shows an error and calls `st.stop()`,
so no dashboard at all is produced (`none`); otherwise the view-model is
computed over the filtered table. -/
def run_app (fs : FileSystem) (selected_continents : List String) :
    Option AppView :=
  match read_csvs fs with
  | .error _ => none
  | .ok (_, df_countries) =>
    let dff := df_filtered selected_continents df_countries
    some ⟨total_cases_sum dff, total_deaths_sum dff, avg_vax_display dff,
          top_country dff, reference_lines dff⟩

/-- Helper: `load_data` is the identity on a state that already holds a
cached value, and returns that value. -/
theorem load_data_cached (fs : FileSystem) (s : CacheState) (v)
    (h : s.cache = some v) : load_data fs s = (.ok v, s) := by
  unfold load_data
  rw [h]

/-- Helper: repeated calls leave a populated cache state unchanged. -/
theorem call_load_n_cached (fs : FileSystem) (n : Nat) (s : CacheState) (v)
    (h : s.cache = some v) : call_load_n fs n s = s := by
  induction n with
  | zero => rfl
  | succ k ih =>
    show call_load_n fs k (load_data fs s).2 = s
    rw [load_data_cached fs s v h]
    exact ih

/-- C5: if either input resource is absent, loading fails with
`ResourceNotFound` and the script run renders nothing (no partial
dashboard); if both are present, the first call runs the reading body
exactly once and caches the tables, and every later call — after any
number of further script runs — returns the same tables without running
the body again. -/
theorem load_data_contract (fs : FileSystem)
    (selected_continents : List String) (n : Nat) :
    ((fs.ml_global_prediction = none ∨ fs.country_insight_full = none) →
      read_csvs fs = .error .ResourceNotFound
      ∧ run_app fs selected_continents = none)
    ∧ (∀ t c, fs.ml_global_prediction = some t →
        fs.country_insight_full = some c →
        (load_data fs init_state).1 = .ok (t, c)
        ∧ (load_data fs init_state).2.body_runs = 1
        ∧ (call_load_n fs n (load_data fs init_state).2).body_runs = 1
        ∧ (load_data fs
            (call_load_n fs n (load_data fs init_state).2)).1 = .ok (t, c)) := by
  constructor
  · intro hmiss
    have herr : read_csvs fs = .error .ResourceNotFound := by
      unfold read_csvs
      rcases hmiss with h | h
      · rw [h]
      · cases hml : fs.ml_global_prediction with
        | none => rfl
        | some t => rw [h]
    refine ⟨herr, ?_⟩
    unfold run_app
    rw [herr]
  · intro t c hml hc
    have hread : read_csvs fs = .ok (t, c) := by
      unfold read_csvs
      rw [hml, hc]
    have h1 : load_data fs init_state
        = (.ok (t, c), ⟨some (t, c), 1⟩) := by
      unfold load_data init_state
      rw [hread]
    have h2 : (load_data fs init_state).2 = ⟨some (t, c), 1⟩ := by rw [h1]
    have h3 : call_load_n fs n (load_data fs init_state).2
        = (⟨some (t, c), 1⟩ : CacheState) := by
      rw [h2]
      exact call_load_n_cached fs n _ (t, c) rfl
    refine ⟨by rw [h1], by rw [h2], by rw [h3], ?_⟩
    rw [h3, load_data_cached fs _ (t, c) rfl]

/-- Concrete instantiation of `load_data_contract`: a file system holding
a one-row trend table and the §8 scenario country table, probed after 5
further calls. -/
theorem load_data_contract_witness :
    (load_data ⟨some [⟨"2021-01-01", 3, 2⟩], some scenario_records⟩
        init_state).1 = .ok ([⟨"2021-01-01", 3, 2⟩], scenario_records)
    ∧ (call_load_n ⟨some [⟨"2021-01-01", 3, 2⟩], some scenario_records⟩ 5
        (load_data ⟨some [⟨"2021-01-01", 3, 2⟩], some scenario_records⟩
          init_state).2).body_runs = 1
    ∧ run_app ⟨none, some scenario_records⟩ [] = none :=
  ⟨((load_data_contract ⟨some [⟨"2021-01-01", 3, 2⟩], some scenario_records⟩
      [] 5).2 [⟨"2021-01-01", 3, 2⟩] scenario_records rfl rfl).1,
   ((load_data_contract ⟨some [⟨"2021-01-01", 3, 2⟩], some scenario_records⟩
      [] 5).2 [⟨"2021-01-01", 3, 2⟩] scenario_records rfl rfl).2.2.1,
   ((load_data_contract ⟨none, some scenario_records⟩ [] 5).1
      (Or.inl rfl)).2⟩

/-- C6: a metric name outside the enumerated selectbox set is rejected:
the ranking fails with `InvalidSelection` (pandas raises `KeyError` at the
column lookup) and no ranked list is ever produced for rendering. -/
theorem invalid_metric_rejected (metric : String)
    (hm : metric ∉ map_metric_options) (df : List CountryRecord) :
    top10 metric df = .error .InvalidSelection
    ∧ ∀ l, top10 metric df ≠ .ok l := by
  have h : top10 metric df = .error .InvalidSelection := by
    unfold top10
    rw [if_neg hm]
  refine ⟨h, fun l hl => ?_⟩
  rw [h] at hl
  cases hl

/-- Concrete instantiation of `invalid_metric_rejected`: the column name
`"population"` is not a selectable metric. -/
theorem invalid_metric_rejected_witness :
    top10 "population" scenario_records = .error .InvalidSelection :=
  (invalid_metric_rejected "population" (by decide) scenario_records).1

/-- C7: Filter, Summarize and Rank are pure functions of their inputs —
two invocations on identical inputs (selection, table, metric) produce
identical filtered sets, identical summary statistics and identical
rankings; no hidden state enters any of these definitions. -/
theorem view_model_deterministic (sel₁ sel₂ : List String)
    (df₁ df₂ : List CountryRecord) (m₁ m₂ : String)
    (hs : sel₁ = sel₂) (hd : df₁ = df₂) (hm : m₁ = m₂) :
    df_filtered sel₁ df₁ = df_filtered sel₂ df₂
    ∧ total_cases_sum (df_filtered sel₁ df₁)
        = total_cases_sum (df_filtered sel₂ df₂)
    ∧ total_deaths_sum (df_filtered sel₁ df₁)
        = total_deaths_sum (df_filtered sel₂ df₂)
    ∧ avg_vax_rate (df_filtered sel₁ df₁)
        = avg_vax_rate (df_filtered sel₂ df₂)
    ∧ top_country (df_filtered sel₁ df₁)
        = top_country (df_filtered sel₂ df₂)
    ∧ top10 m₁ (df_filtered sel₁ df₁) = top10 m₂ (df_filtered sel₂ df₂) := by
  subst hs
  subst hd
  subst hm
  exact ⟨rfl, rfl, rfl, rfl, rfl, rfl⟩

/-- Concrete instantiation of `view_model_deterministic` on the §8
scenario rows with the `{EU}` selection and the `total_cases` metric. -/
theorem view_model_deterministic_witness :
    df_filtered ["EU"] scenario_records = df_filtered ["EU"] scenario_records
    ∧ total_cases_sum (df_filtered ["EU"] scenario_records)
        = total_cases_sum (df_filtered ["EU"] scenario_records)
    ∧ total_deaths_sum (df_filtered ["EU"] scenario_records)
        = total_deaths_sum (df_filtered ["EU"] scenario_records)
    ∧ avg_vax_rate (df_filtered ["EU"] scenario_records)
        = avg_vax_rate (df_filtered ["EU"] scenario_records)
    ∧ top_country (df_filtered ["EU"] scenario_records)
        = top_country (df_filtered ["EU"] scenario_records)
    ∧ top10 "total_cases" (df_filtered ["EU"] scenario_records)
        = top10 "total_cases" (df_filtered ["EU"] scenario_records) :=
  view_model_deterministic ["EU"] ["EU"] scenario_records scenario_records
    "total_cases" "total_cases" rfl rfl rfl

/-- The filter step as a state transformer: line 64 binds the filtered
frame to a fresh name while the source frame `df_countries` stays in
place (it is re-read by lines 66 and later interactions). -/
def apply_filter (selected_continents : List String)
    (df_countries : List CountryRecord) :
    List CountryRecord × List CountryRecord :=
  (df_filtered selected_continents df_countries, df_countries)

/-- C8: filtering never mutates the source table: after the filter step
the source component is the loaded table itself, unchanged record for
record, and the filtered frame consists of rows of the source with all
fields untouched, in original order (a sublist of the source). -/
theorem filter_preserves_source (sel : List String)
    (df : List CountryRecord) :
    (apply_filter sel df).2 = df
    ∧ List.Sublist (apply_filter sel df).1 df
    ∧ ∀ r ∈ (apply_filter sel df).1, r ∈ df := by
  have hsub : List.Sublist (apply_filter sel df).1 df := by
    show List.Sublist (df_filtered sel df) df
    unfold df_filtered
    by_cases h : sel ≠ []
    · rw [if_pos h]
      exact List.filter_sublist df
    · rw [if_neg h]
  exact ⟨rfl, hsub, fun r hr => hsub.mem hr⟩

/-- C9: the multiselect offers exactly the distinct continents of the
loaded table, so every reachable selection is a subset of them; when the
loaded table is non-empty the filtered set is therefore non-empty, the
top-country sentinel branch is unreachable (the maximum row exists and
its location is shown) and the reference lines are produced. -/
theorem filtered_nonempty_of_valid_selection (df : List CountryRecord)
    (hdf : df ≠ []) (sel : List String)
    (hsel : ∀ c ∈ sel, c ∈ all_continents df) :
    df_filtered sel df ≠ []
    ∧ (∃ r, idxmaxRecord (df_filtered sel df) = some r
        ∧ top_country (df_filtered sel df) = r.location)
    ∧ reference_lines (df_filtered sel df) ≠ none := by
  have hne : df_filtered sel df ≠ [] := by
    cases sel with
    | nil => simpa [df_filtered] using hdf
    | cons c rest =>
      have hc : c ∈ all_continents df := hsel c (List.mem_cons_self c rest)
      simp only [all_continents, List.mem_insertionSort, List.mem_dedup]
        at hc
      obtain ⟨r, hr, hrc⟩ := List.mem_map.mp hc
      have hmem : r ∈ df_filtered (c :: rest) df := by
        unfold df_filtered
        rw [if_pos (by exact List.cons_ne_nil c rest)]
        refine List.mem_filter.mpr ⟨hr, ?_⟩
        rw [decide_eq_true_eq, hrc]
        exact List.mem_cons_self c rest
      exact List.ne_nil_of_mem hmem
  obtain ⟨r, hreq, hrmem, hrmax⟩ := idxmaxRecord_spec _ hne
  refine ⟨hne, ⟨r, hreq, ?_⟩, ?_⟩
  · unfold top_country
    rw [hreq]
  · simp [reference_lines, hne]

/-- Concrete instantiation of `filtered_nonempty_of_valid_selection` on
the §8 scenario rows with the empty (fallback) selection. -/
theorem filtered_nonempty_witness :
    df_filtered [] scenario_records ≠ []
    ∧ reference_lines (df_filtered [] scenario_records) ≠ none :=
  ⟨(filtered_nonempty_of_valid_selection scenario_records
      (List.cons_ne_nil rowEU1 [rowEU2, rowAS1]) []
      (fun c hc => absurd hc (List.not_mem_nil c))).1,
   (filtered_nonempty_of_valid_selection scenario_records
      (List.cons_ne_nil rowEU1 [rowEU2, rowAS1]) []
      (fun c hc => absurd hc (List.not_mem_nil c))).2.2⟩

/-- C10: the model-status computation reads the last trend row with no
emptiness guard: on a non-empty trend table it yields the last row's
smoothed new cases minus its prediction, and on an empty table the access
fails (pandas `IndexError`, modelled `none`) rather than degrading to a
sentinel. -/
theorem model_status_last_row (df : List TrendRecord) (h : df ≠ []) :
    model_status_err df
      = some ((df.getLast h).new_cases_smoothed - (df.getLast h).prediction)
    ∧ model_status_err [] = none := by
  constructor
  · unfold model_status_err
    rw [List.getLast?_eq_getLast df h]
  · rfl

/-- Concrete instantiation of `model_status_last_row` on a one-row trend
table with 7 smoothed cases and prediction 4. -/
theorem model_status_last_row_witness :
    model_status_err [⟨"2021-01-02", 7, 4⟩] = some 3 := by
  rw [(model_status_last_row [⟨"2021-01-02", 7, 4⟩]
    (List.cons_ne_nil _ [])).1]
  norm_num [List.getLast]
